import Mathlib

/-
  Verification of the adaptive crawl scheduler core of the WKO crawler
  (src/crawler/continuous_crawler.py and src/crawler/branch_rating.py).

  Shallow embedding conventions:
  * Python `None`-able strings become `Option String`; `dict.get(k)` with a
    default becomes the corresponding `Option` operation or a total function.
  * The sqlite dedupe table (PRIMARY KEY on dedupe_key) becomes a list of
    rows; the unique-constraint insert (`INSERT`, catching IntegrityError)
    becomes a key-membership test before append.
  * Wall-clock timestamps that the code obtains by parsing ISO-8601 strings
    are modelled by their parse outcome: `Option` of a numeric time (seconds),
    or the three-way `NextAllowed` outcome for `next_allowed_at`
    (absent/empty, unparseable, parsed value) — exactly the three cases the
    code branches on.
  * Python `str.split()` / `str.lower()` are modelled over the character
    ranges the claims exercise (ASCII whitespace and ASCII case); the
    concrete instances below stay within that range.
  * `time.sleep` calls are ignored (they do not affect any state or control
    flow); `random.uniform` jitter is passed in as an explicit parameter.
  * Real-valued scoring (math.log1p etc.) is embedded over `ℝ`.
-/

namespace ContinuousCrawler

/-! ### Text normalisation and the dedupe key (_clean_text, _norm_for_key, _dedupe_key) -/

/-- Python `str.split()` with no arguments (split on runs of whitespace,
dropping empty pieces), as structural recursion over the characters with a
current-word accumulator.  Kernel-reducible, unlike core `String.split`. -/
def py_split_aux : List Char → List Char → List (List Char)
  | [], cur => if cur = [] then [] else [cur.reverse]
  | c :: cs, cur =>
    if c.isWhitespace then
      if cur = [] then py_split_aux cs []
      else cur.reverse :: py_split_aux cs []
    else py_split_aux cs (c :: cur)

/-- `str(s).split()` on a string. -/
def py_split (s : String) : List (List Char) := py_split_aux s.data []

/-- Python `str.strip()`: drop leading and trailing whitespace. -/
def trim_ws (l : List Char) : List Char :=
  ((l.dropWhile Char.isWhitespace).reverse.dropWhile Char.isWhitespace).reverse

/-- Python `str.lower()` (over the ASCII range the claims exercise). -/
def lower_str (s : String) : String := String.mk (s.data.map Char.toLower)

/-- Python `_clean_text`: `None` stays `None`; otherwise split on whitespace,
re-join with single spaces, strip; an empty result becomes `None`
(`" ".join(str(s).split()).strip() or None`). -/
def clean_text : Option String → Option String
  | Option.none => Option.none
  | some s =>
    let joined := trim_ws (List.intercalate [' '] (py_split s))
    if joined = [] then Option.none else some (String.mk joined)

/-- Python `_norm_for_key`: `(_clean_text(s) or "").lower()`. -/
def norm_for_key (s : Option String) : String :=
  lower_str ((clean_text s).getD "")

/-- One extracted listing record, restricted to the fields the dedupe layer
reads and stores (`row.get(...)` on an open dict). -/
structure Row where
  branche : Option String := Option.none
  name : Option String := Option.none
  street : Option String := Option.none
  zip_city : Option String := Option.none
  wko_detail_url : Option String := Option.none
deriving DecidableEq, Repr

/-- Python `_dedupe_key`: `addr = f"{street or ''} {zip_city or ''}".strip()`,
then `f"{_norm_for_key(name)}|{_norm_for_key(addr)}"`. -/
def dedupe_key (row : Row) : String :=
  let addr := String.mk (trim_ws
    ((row.street.getD "").data ++ ' ' :: (row.zip_city.getD "").data))
  norm_for_key row.name ++ "|" ++ norm_for_key (some addr)

/-! ### DedupeStore  -/

/-- One row of the sqlite `dedupe` table. -/
structure DedupeRow where
  dedupe_keyCol : String
  first_seen_at : String
  branche : Option String
  name : Option String
  street : Option String
  zip_city : Option String
  wko_detail_url : Option String
deriving DecidableEq, Repr

/-- The sqlite-backed dedupe store: its persistent table contents.
`dedupe_key` is the table's PRIMARY KEY. -/
structure DedupeStore where
  table : List DedupeRow
deriving DecidableEq, Repr

/-- Whether the PRIMARY KEY `key` is already present (what makes the INSERT
in `add_if_new` raise `sqlite3.IntegrityError`). -/
def DedupeStore.hasKey (st : DedupeStore) (key : String) : Bool :=
  st.table.any (fun r => r.dedupe_keyCol == key)

/-- Python `DedupeStore.add_if_new`: computes the dedupe key and attempts the
unique INSERT; returns `true` (and the grown table) on success, `false` (table
unchanged) when the key already exists.  `nowIso` is the `_now_iso()`
first-seen timestamp. -/
def DedupeStore.add_if_new (st : DedupeStore) (nowIso : String) (row : Row) :
    Bool × DedupeStore :=
  let key := dedupe_key row
  if st.hasKey key then (false, st)
  else (true,
    ⟨st.table ++ [⟨key, nowIso, row.branche, row.name, row.street, row.zip_city,
                   row.wko_detail_url⟩]⟩)

/-- Python `DedupeStore.close`: the connection closes; what survives is the
on-disk table. -/
def DedupeStore.close (st : DedupeStore) : List DedupeRow := st.table

/-- Python `DedupeStore.__init__` on an existing database file:
`CREATE TABLE IF NOT EXISTS` keeps the persisted rows. -/
def openDedupeStore (persisted : List DedupeRow) : DedupeStore := ⟨persisted⟩

/-! ### BackoffController -/

def MAX_DENIED_BACKOFF_SECONDS : ℕ := 60

def MAX_ERROR_BACKOFF_SECONDS : ℕ := 300

structure BackoffController where
  denied_streak : ℕ
  error_streak : ℕ
  last_wait : ℚ
deriving DecidableEq, Repr

/-- `BackoffController.__init__`. -/
def BackoffController.init : BackoffController := ⟨0, 0, 0⟩

/-- Python `on_success`: reset both streaks and the last wait. -/
def BackoffController.on_success (_ : BackoffController) : BackoffController :=
  ⟨0, 0, 0⟩

/-- Python `on_denied`: `denied_streak += 1; error_streak = 0;
wait = min(MAX_DENIED_BACKOFF_SECONDS, 2 ** denied_streak)`; (sleeps) and
returns `wait`. -/
def BackoffController.on_denied (b : BackoffController) : BackoffController × ℕ :=
  let ds := b.denied_streak + 1
  let wait := min MAX_DENIED_BACKOFF_SECONDS (2 ^ ds)
  (⟨ds, 0, (wait : ℚ)⟩, wait)

/-- Python `on_error`: `error_streak += 1;
wait = min(MAX_ERROR_BACKOFF_SECONDS, 2 ** error_streak) + jitter`; (sleeps)
and returns `wait`.  Note: `denied_streak` is left untouched.  The random
jitter in `[0, 0.5]` is passed in explicitly. -/
def BackoffController.on_error (b : BackoffController) (jitter : ℚ) :
    BackoffController × ℚ :=
  let es := b.error_streak + 1
  let wait := ((min MAX_ERROR_BACKOFF_SECONDS (2 ^ es) : ℕ) : ℚ) + jitter
  (⟨b.denied_streak, es, wait⟩, wait)

/-- The state after `n` consecutive `on_denied` calls starting from a fresh
controller. -/
def denied_iter : ℕ → BackoffController
  | 0 => BackoffController.init
  | n + 1 => ((denied_iter n).on_denied).1

/-- The wait returned by the `(n+1)`-th consecutive `on_denied` call. -/
def denied_wait (n : ℕ) : ℕ := ((denied_iter n).on_denied).2

lemma denied_iter_streak (n : ℕ) : (denied_iter n).denied_streak = n := by
  induction n with
  | zero => rfl
  | succ k ih =>
    simp only [denied_iter, BackoffController.on_denied]
    simp [ih]

lemma denied_wait_eq (n : ℕ) :
    denied_wait n = min MAX_DENIED_BACKOFF_SECONDS (2 ^ (n + 1)) := by
  simp only [denied_wait, BackoffController.on_denied, denied_iter_streak]

/-! ### Scheduler selection (_select_next_branch) -/

/-- The parse outcome of a stored `next_allowed_at` value, the three cases
`_select_next_branch` distinguishes: falsy (absent / `None` / empty string),
a non-empty string on which `datetime.fromisoformat` raises `ValueError`,
or a parsed timestamp (modelled as seconds). -/
inductive NextAllowed where
  | null : NextAllowed
  | malformed : NextAllowed
  | valid : ℚ → NextAllowed
deriving DecidableEq, Repr

/-- Per-branch statistics as read from `state["branches"]` (missing keys
default to zero / null, matching `stats.get(..., 0)` and `.get(...)`).
`last_crawled_at` is the ISO parse outcome used by `_days_since`
(seconds since epoch), `next_allowed_at` the outcome used by
`_select_next_branch`. -/
structure BranchState where
  crawl_count : ℤ := 0
  last_rows : ℤ := 0
  access_denied_count : ℤ := 0
  last_crawled_at : Option ℝ := Option.none
  next_allowed_at : NextAllowed := NextAllowed.null

/-- One entry of the ratings list produced by `generate_ratings`. -/
structure RatingRow where
  branche : String
  url : String
  score : ℚ
  crawl_count : ℤ
  last_rows : ℤ
  last_crawled_at : Option String
deriving DecidableEq, Repr

/-- The eligibility test inside `_select_next_branch`'s loop body: a branch
is skipped (`continue`) only when `next_allowed_at` parses and the parsed
time is strictly after `now`; a falsy value or a `ValueError` (the `pass`
branch) falls through to `return row`. -/
def branch_eligible (now : ℚ) (st : BranchState) : Bool :=
  match st.next_allowed_at with
  | NextAllowed.null => true
  | NextAllowed.malformed => true
  | NextAllowed.valid t => decide (t ≤ now)

/-- Python `_select_next_branch`: walk the ratings list in order (it arrives
sorted by descending score from `generate_ratings`) and return the first
row whose branch is eligible; `None` when every branch is cooling down. -/
def select_next_branch (now : ℚ) (state : String → BranchState) :
    List RatingRow → Option RatingRow
  | [] => Option.none
  | row :: rest =>
    if branch_eligible now (state row.branche) then some row
    else select_next_branch now state rest

/-! ### Priority rating engine (branch_rating.py) -/

/-- The `KEYWORD_WEIGHTS` table, byte-for-byte as it appears in the source
(the second entry literally reads "groÃŸhandel" in the file). -/
noncomputable def KEYWORD_WEIGHTS : List (String × ℝ) :=
  [("industrie", 2.0), ("groÃŸhandel", 1.8), ("grosshandel", 1.8),
   ("handel", 1.2), ("maschinen", 1.3), ("technik", 1.3), ("pharma", 2.0),
   ("chemie", 1.5), ("metall", 1.4), ("elektro", 1.4), ("it", 1.2),
   ("software", 1.2), ("medizin", 1.4), ("energie", 1.4), ("transport", 1.2),
   ("bau", 1.1)]

/-- Whether `pat` occurs as a contiguous run inside `hay`. -/
def infix_of_chars (pat : List Char) : List Char → Bool
  | [] => pat.isEmpty
  | c :: t => pat.isPrefixOf (c :: t) || infix_of_chars pat t

/-- Substring test (`key in text` in Python): contiguous-substring
occurrence. -/
def contains_sub (hay pat : String) : Bool := infix_of_chars pat.data hay.data

/-- Python `_text_score`: `1.0` plus the weight of every keyword occurring
in the lowercased branch name. -/
noncomputable def text_score (branche : String) : ℝ :=
  1.0 + ((KEYWORD_WEIGHTS.filter
    (fun kw => contains_sub (lower_str branche) kw.1)).map Prod.snd).sum

/-- Python `_days_since`: 365.0 when the timestamp is absent or unparseable,
otherwise `max(0.0, delta.total_seconds() / 86400.0)`. -/
noncomputable def days_since (now : ℝ) (ts : Option ℝ) : ℝ :=
  match ts with
  | Option.none => 365.0
  | some t => max 0.0 ((now - t) / 86400.0)

/-- `freshness_boost = min(3.0, math.log1p(last_days))`. -/
noncomputable def freshness_boost (lastDays : ℝ) : ℝ :=
  min 3.0 (Real.log (1 + lastDays))

/-- `rarity_boost = 1.0 / (1.0 + crawl_count * 0.35)` with
`crawl_count = max(0, int(...))`. -/
noncomputable def rarity_boost (st : BranchState) : ℝ :=
  1.0 / (1.0 + ((max 0 st.crawl_count : ℤ) : ℝ) * 0.35)

/-- `yield_boost = min(2.0, math.log1p(last_rows) / 3.0)` with
`last_rows = max(0, int(...))`. -/
noncomputable def yield_boost (st : BranchState) : ℝ :=
  min 2.0 (Real.log (1 + ((max 0 st.last_rows : ℤ) : ℝ)) / 3.0)

/-- `denied_penalty = min(0.7, 0.1 * access_denied_count)`. -/
noncomputable def denied_penalty (st : BranchState) : ℝ :=
  min 0.7 (0.1 * (st.access_denied_count : ℝ))

/-- Python `_priority_score` with the `last_days = _days_since(...)` value
factored out as a parameter:
`max(0.05, text * (1.0 + freshness_boost + yield_boost) * rarity_boost
 - denied_penalty)`. -/
noncomputable def priority_score_aux (branche : String) (st : BranchState)
    (lastDays : ℝ) : ℝ :=
  max 0.05 (text_score branche *
      (1.0 + freshness_boost lastDays + yield_boost st) * rarity_boost st
    - denied_penalty st)

/-- Python `_priority_score(branche, stats)` at wall-clock time `now`. -/
noncomputable def priority_score (branche : String) (st : BranchState)
    (now : ℝ) : ℝ :=
  priority_score_aux branche st (days_since now st.last_crawled_at)

lemma keyword_weights_nonneg : ∀ p ∈ KEYWORD_WEIGHTS, (0 : ℝ) ≤ p.2 := by
  intro p hp
  simp only [KEYWORD_WEIGHTS, List.mem_cons, List.not_mem_nil, or_false] at hp
  rcases hp with rfl | rfl | rfl | rfl | rfl | rfl | rfl | rfl | rfl | rfl |
    rfl | rfl | rfl | rfl | rfl | rfl <;> norm_num

lemma text_score_nonneg (branche : String) : (0 : ℝ) ≤ text_score branche := by
  unfold text_score
  have h : (0 : ℝ) ≤ ((KEYWORD_WEIGHTS.filter
      (fun kw => contains_sub (lower_str branche) kw.1)).map Prod.snd).sum := by
    apply List.sum_nonneg
    intro w hw
    simp only [List.mem_map] at hw
    obtain ⟨p, hp, rfl⟩ := hw
    exact keyword_weights_nonneg p (List.mem_of_mem_filter hp)
  linarith

lemma rarity_boost_nonneg (st : BranchState) : (0 : ℝ) ≤ rarity_boost st := by
  unfold rarity_boost
  have hc : (0 : ℝ) ≤ ((max 0 st.crawl_count : ℤ) : ℝ) := by
    exact_mod_cast le_max_left 0 st.crawl_count
  apply div_nonneg (by norm_num)
  nlinarith

/-! ### Branch stepper (crawl_branch) -/

def MAX_LOAD_MORE_CLICKS : ℕ := 500

/-- The outcome of one `_fetch_with_retry` call that did not raise: HTTP
status, response text (`resp.text or ""`), and how long the request took
(`time.perf_counter()` elapsed, in seconds). -/
structure FetchResponse where
  status : ℕ
  body : String
  durationS : ℚ
deriving DecidableEq, Repr

/-- The remote site as the stepper observes it: the initial GET outcome and
the outcome of the `k`-th load-more POST.  `Except.error` is a
`requests.RequestException` that survived all retries. -/
structure Site where
  getResponse : Except Unit FetchResponse
  postResponse : ℕ → Except Unit FetchResponse

/-- The HTML-dependent observations the stepper makes via BeautifulSoup
(out-of-scope extraction logic, abstracted as functions of the page body):
`_extract_cards_and_soup` restricted to the dedupe-relevant fields,
`_has_load_more`, and whether `_parse_form_fields` yields usable (truthy)
fields. -/
structure PageFns where
  extractRows : String → List Row
  hasLoadMore : String → Bool
  hasFormFields : String → Bool

/-- The dict `crawl_branch` returns. -/
structure CrawlOutcome where
  inserted : ℕ
  steps : ℕ
  access_denied : Bool
  transient_error : Bool
  waited_s : ℚ
  duration_s : ℚ
deriving DecidableEq, Repr

/-- `resp.status_code == 403 or "access denied" in body.lower()`. -/
def is_denied_response (r : FetchResponse) : Bool :=
  r.status == 403 || contains_sub (lower_str r.body) "access denied"

/-- The per-page dedupe pass: `for row in rows: if add_if_new(row):
new_rows.append(row)`; returns the grown store and `len(new_rows)`. -/
def add_rows_if_new (st : DedupeStore) (nowIso : String) :
    List Row → DedupeStore × ℕ
  | [] => (st, 0)
  | r :: rs =>
    let first := st.add_if_new nowIso r
    let rest := add_rows_if_new first.2 nowIso rs
    (rest.1, (if first.1 then 1 else 0) + rest.2)

/-- The body of `crawl_branch`'s `for _ in range(MAX_LOAD_MORE_CLICKS + 1)`
loop, with the remaining range as explicit fuel.  Falling off the end of the
range (fuel 0) is the final non-error return.  Each iteration: extract and
dedupe the current page, bump the step counter, stop if the load-more button
or the form is missing, otherwise POST; a request exception reports
`transient_error`, a denial reports `access_denied`, a byte-identical body
is the loop guard, anything else continues with the new page. -/
def crawl_branch_loop (fns : PageFns) (site : Site) (jitter : ℚ)
    (nowIso : String) :
    ℕ → DedupeStore → BackoffController → String → ℕ → ℕ → ℕ → ℚ →
    CrawlOutcome × BackoffController × DedupeStore
  | 0, store, backoff, _, inserted, steps, _, elapsed =>
    (⟨inserted, steps, false, false, 0, elapsed⟩, backoff, store)
  | fuel + 1, store, backoff, html, inserted, steps, postIdx, elapsed =>
    let paged := add_rows_if_new store nowIso (fns.extractRows html)
    let inserted1 := inserted + paged.2
    let steps1 := steps + 1
    if fns.hasLoadMore html then
      if fns.hasFormFields html then
        match site.postResponse postIdx with
        | Except.error _ =>
          let eb := backoff.on_error jitter
          (⟨inserted1, steps1, false, true, eb.2, elapsed⟩, eb.1, paged.1)
        | Except.ok resp =>
          let elapsed1 := elapsed + resp.durationS
          if is_denied_response resp then
            let db := backoff.on_denied
            (⟨inserted1, steps1, true, false, (db.2 : ℚ), elapsed1⟩, db.1,
              paged.1)
          else if resp.body == html then
            (⟨inserted1, steps1, false, false, 0, elapsed1⟩,
              backoff.on_success, paged.1)
          else
            crawl_branch_loop fns site jitter nowIso fuel paged.1
              backoff.on_success resp.body inserted1 steps1 (postIdx + 1)
              elapsed1
      else
        (⟨inserted1, steps1, false, false, 0, elapsed⟩, backoff, paged.1)
    else
      (⟨inserted1, steps1, false, false, 0, elapsed⟩, backoff, paged.1)

/-- Python `crawl_branch`: initial GET (request exception → transient error,
403/denial marker → denied), then the load-more loop.  The politeness sleeps
(`before_request`) touch no state and are dropped; `duration_s` accumulates
the request durations. -/
def crawl_branch (fns : PageFns) (site : Site) (jitter : ℚ) (nowIso : String)
    (store : DedupeStore) (backoff : BackoffController) :
    CrawlOutcome × BackoffController × DedupeStore :=
  match site.getResponse with
  | Except.error _ =>
    let eb := backoff.on_error jitter
    (⟨0, 0, false, true, eb.2, 0⟩, eb.1, store)
  | Except.ok resp =>
    if is_denied_response resp then
      let db := backoff.on_denied
      (⟨0, 0, true, false, (db.2 : ℚ), resp.durationS⟩, db.1, store)
    else
      crawl_branch_loop fns site jitter nowIso (MAX_LOAD_MORE_CLICKS + 1)
        store backoff.on_success resp.body 0 0 0 resp.durationS

/-! ### Concrete rows used by the dedupe-key claims -/

def row_base : Row :=
  { name := some "ACME Stahl GmbH", street := some "Hauptstrasse 12",
    zip_city := some "1010 Wien" }

def row_cased : Row :=
  { name := some "acme stahl gmbh", street := some "HAUPTSTRASSE 12",
    zip_city := some "1010 WIEN" }

def row_spaced : Row :=
  { name := some "  ACME   Stahl  GmbH ", street := some "Hauptstrasse   12",
    zip_city := some " 1010  Wien " }

def row_punct : Row :=
  { name := some "ACME, Stahl GmbH", street := some "Hauptstrasse 12",
    zip_city := some "1010 Wien" }

def row_dia : Row :=
  { name := some "Müller Café", street := some "Gasse 2",
    zip_city := some "1020 Wien" }

def row_dia_ascii : Row :=
  { name := some "Muller Cafe", street := some "Gasse 2",
    zip_city := some "1020 Wien" }

/-! ### Claim theorems -/

/-- C1: Dedupe idempotence.  For every store contents and every record whose
dedupe key is not yet present, inserting it, closing and reopening the store,
and inserting any record with the same normalized `(name, street, zip_city)`
key again yields: first `add_if_new` returns true, the second returns false,
and the reopened table holds exactly one row for that dedupe key. -/
theorem dedupe_add_if_new_idempotent (st : DedupeStore) (r r' : Row)
    (now1 now2 : String)
    (hfresh : st.hasKey (dedupe_key r) = false)
    (hkey : dedupe_key r' = dedupe_key r) :
    (st.add_if_new now1 r).1 = true
  ∧ ((openDedupeStore (st.add_if_new now1 r).2.close).add_if_new now2 r').1
      = false
  ∧ (((openDedupeStore (st.add_if_new now1 r).2.close).add_if_new now2
        r').2.table.filter (fun dr => dr.dedupe_keyCol == dedupe_key r)).length
      = 1 := by
  have hany : st.table.any (fun dr => dr.dedupe_keyCol == dedupe_key r)
      = false := by
    simpa [DedupeStore.hasKey] using hfresh
  have hfilter : st.table.filter (fun dr => dr.dedupe_keyCol == dedupe_key r)
      = [] := by
    rw [List.filter_eq_nil_iff]
    intro a ha
    have h := List.any_eq_false.mp hany a ha
    simpa using h
  refine ⟨?_, ?_, ?_⟩ <;>
    simp [DedupeStore.add_if_new, DedupeStore.hasKey, DedupeStore.close,
      openDedupeStore, hany, hkey, hfilter, List.filter_append]

/-- C1 witness: a concrete run of the theorem on an empty store. -/
theorem dedupe_add_if_new_idempotent_witness :
    ((⟨[]⟩ : DedupeStore).add_if_new "t0" row_base).1 = true
  ∧ ((openDedupeStore ((⟨[]⟩ : DedupeStore).add_if_new "t0"
        row_base).2.close).add_if_new "t1" row_spaced).1 = false
  ∧ (((openDedupeStore ((⟨[]⟩ : DedupeStore).add_if_new "t0"
        row_base).2.close).add_if_new "t1" row_spaced).2.table.filter
        (fun dr => dr.dedupe_keyCol == dedupe_key row_base)).length = 1 :=
  dedupe_add_if_new_idempotent ⟨[]⟩ row_base row_spaced "t0" "t1"
    (by decide) (by decide)

/-- C3 counterexample: `on_error` does not reset `denied_streak`.  After one
denial (streak 1), an `on_error` call leaves `denied_streak` at 1, not 0. -/
theorem on_error_keeps_denied_streak_cex :
    ¬ (((BackoffController.init.on_denied).1.on_error 0).1.denied_streak
        = 0) := by
  decide

/-- C3 amended: the streak resetting is one-way: every `on_denied` call sets
`error_streak` to 0, but `on_error` leaves `denied_streak` unchanged (only
`on_success` and `on_denied` reset it). -/
theorem backoff_streaks_one_way_reset (b : BackoffController) (jitter : ℚ) :
    (b.on_denied).1.error_streak = 0
  ∧ (b.on_error jitter).1.denied_streak = b.denied_streak :=
  ⟨rfl, rfl⟩

/-- C8: Backoff monotonicity, bounded.  The wait of the `(n+1)`-th
consecutive `on_denied` from a fresh controller equals
`min(MAX_DENIED_BACKOFF_SECONDS, 2^(n+1))`; the waits are non-decreasing and
capped at `MAX_DENIED_BACKOFF_SECONDS` (60); after any `on_success`, the
next `on_denied` returns the initial wait again. -/
theorem denied_backoff_monotone_bounded (n : ℕ) (b : BackoffController) :
    denied_wait n = min MAX_DENIED_BACKOFF_SECONDS (2 ^ (n + 1))
  ∧ denied_wait n ≤ denied_wait (n + 1)
  ∧ denied_wait n ≤ MAX_DENIED_BACKOFF_SECONDS
  ∧ ((b.on_success).on_denied).2 = denied_wait 0 := by
  refine ⟨denied_wait_eq n, ?_, ?_, rfl⟩
  · rw [denied_wait_eq, denied_wait_eq]
    exact min_le_min le_rfl (Nat.pow_le_pow_right (by norm_num) (by omega))
  · rw [denied_wait_eq]
    exact min_le_left _ _

/-- C9: a branch whose stored `next_allowed_at` is a non-empty but
unparseable string (the `ValueError`/`pass` path) is treated as eligible by
the selection step: it passes `branch_eligible` and is returned when it is
the best-rated row, rather than being skipped or raising. -/
theorem malformed_next_allowed_treated_eligible (now : ℚ)
    (state : String → BranchState) (row : RatingRow) (rest : List RatingRow)
    (h : (state row.branche).next_allowed_at = NextAllowed.malformed) :
    branch_eligible now (state row.branche) = true
  ∧ select_next_branch now state (row :: rest) = some row := by
  have he : branch_eligible now (state row.branche) = true := by
    unfold branch_eligible
    rw [h]
  exact ⟨he, by simp [select_next_branch, he]⟩

def w9_state : String → BranchState :=
  fun _ => { next_allowed_at := NextAllowed.malformed }

def w9_row : RatingRow :=
  ⟨"Metalltechnik", "https://example.test/m", 2, 0, 0, Option.none⟩

/-- C9 witness: the theorem applied to a concrete malformed-cooldown state. -/
theorem malformed_next_allowed_treated_eligible_witness :
    branch_eligible 0 (w9_state w9_row.branche) = true
  ∧ select_next_branch 0 w9_state [w9_row] = some w9_row :=
  malformed_next_allowed_treated_eligible 0 w9_state w9_row [] rfl

/-- C10: the dedupe key normalizes only by whitespace collapsing and
lowercasing.  Case- and whitespace-variants of a record share one key (and
the second insert is rejected, leaving one stored row), while punctuation-
or diacritic-variants get distinct keys (and both inserts succeed, storing
two rows). -/
theorem dedupe_key_normalization_cases :
    (dedupe_key row_base = dedupe_key row_cased
   ∧ dedupe_key row_base = dedupe_key row_spaced)
  ∧ (dedupe_key row_base ≠ dedupe_key row_punct
   ∧ dedupe_key row_dia ≠ dedupe_key row_dia_ascii)
  ∧ (((⟨[]⟩ : DedupeStore).add_if_new "t0" row_base).1 = true
   ∧ (((⟨[]⟩ : DedupeStore).add_if_new "t0" row_base).2.add_if_new "t1"
        row_cased).1 = false
   ∧ (((⟨[]⟩ : DedupeStore).add_if_new "t0" row_base).2.add_if_new "t1"
        row_cased).2.table.length = 1)
  ∧ (((⟨[]⟩ : DedupeStore).add_if_new "t2" row_punct).1 = true
   ∧ (((⟨[]⟩ : DedupeStore).add_if_new "t2" row_punct).2.add_if_new "t3"
        row_base).1 = true
   ∧ (((⟨[]⟩ : DedupeStore).add_if_new "t2" row_punct).2.add_if_new "t3"
        row_base).2.table.length = 2)
  ∧ (((⟨[]⟩ : DedupeStore).add_if_new "t4" row_dia).2.add_if_new "t5"
        row_dia_ascii).1 = true := by
  decide

/-- C2: the selection step never returns a branch whose stored
`next_allowed_at` parses to a time strictly after `now`, and — the ratings
list being sorted by descending score — every strictly higher-scoring row
than the returned one is ineligible, i.e. the returned row is the first
eligible one in descending-score order. -/
theorem select_respects_cooldown (now : ℚ) (state : String → BranchState)
    (ratings : List RatingRow) (row : RatingRow)
    (hsorted : ratings.Pairwise (fun a b => b.score ≤ a.score))
    (hsel : select_next_branch now state ratings = some row) :
    (∀ t, (state row.branche).next_allowed_at = NextAllowed.valid t → t ≤ now)
  ∧ ∀ r ∈ ratings, row.score < r.score →
      branch_eligible now (state r.branche) = false := by
  induction ratings with
  | nil => simp [select_next_branch] at hsel
  | cons a l ih =>
    rw [List.pairwise_cons] at hsorted
    simp only [select_next_branch] at hsel
    by_cases ha : branch_eligible now (state a.branche) = true
    · rw [if_pos ha] at hsel
      obtain rfl : a = row := Option.some.inj hsel
      refine ⟨?_, ?_⟩
      · intro t ht
        simp only [branch_eligible, ht] at ha
        exact of_decide_eq_true ha
      · intro r hr hscore
        rcases List.mem_cons.mp hr with rfl | hr
        · exact absurd hscore (lt_irrefl _)
        · exact absurd hscore (not_lt.2 (hsorted.1 r hr))
    · rw [if_neg ha] at hsel
      obtain ⟨h1, h2⟩ := ih hsorted.2 hsel
      refine ⟨h1, ?_⟩
      intro r hr hscore
      rcases List.mem_cons.mp hr with rfl | hr
      · simpa using ha
      · exact h2 r hr hscore

def w2_state : String → BranchState := fun b =>
  if b = "Industriebedarf" then { next_allowed_at := NextAllowed.valid 500 }
  else { }

def w2_hot : RatingRow :=
  ⟨"Industriebedarf", "https://example.test/i", 5, 1, 3,
    some "2024-01-01T00:00:00Z"⟩

def w2_cold : RatingRow :=
  ⟨"Baugewerbe", "https://example.test/b", 3, 2, 0, Option.none⟩

/-- C2 witness: with the top-scoring branch cooling down until t=500 and
`now = 100`, the selection returns the lower-scoring eligible branch. -/
theorem select_respects_cooldown_witness :
    (∀ t, (w2_state w2_cold.branche).next_allowed_at = NextAllowed.valid t →
      t ≤ 100)
  ∧ ∀ r ∈ [w2_hot, w2_cold], w2_cold.score < r.score →
      branch_eligible 100 (w2_state r.branche) = false :=
  select_respects_cooldown 100 w2_state [w2_hot, w2_cold] w2_cold
    (by decide) (by decide)

/-- C6: rating floor.  For every branch name, branch state (any crawl_count,
last_rows, last_crawled_at, access_denied_count) and current time, the
priority score is at least 0.05. -/
theorem rating_floor (branche : String) (st : BranchState) (now : ℝ) :
    (0.05 : ℝ) ≤ priority_score branche st now := by
  unfold priority_score priority_score_aux
  exact le_max_left _ _

/-- C7: rating monotonicity in staleness.  Holding the branch name and all
other state fields fixed, `_priority_score` is monotonically non-decreasing
in the `days_since` value (which is 365 when never crawled and otherwise
non-negative). -/
theorem rating_monotone_in_days (branche : String) (st : BranchState)
    (d₁ d₂ : ℝ) (h0 : 0 ≤ d₁) (h12 : d₁ ≤ d₂) :
    priority_score_aux branche st d₁ ≤ priority_score_aux branche st d₂ := by
  unfold priority_score_aux
  refine max_le_max le_rfl (sub_le_sub_right ?_ _)
  refine mul_le_mul_of_nonneg_right ?_ (rarity_boost_nonneg st)
  refine mul_le_mul_of_nonneg_left ?_ (text_score_nonneg branche)
  have hlog : Real.log (1 + d₁) ≤ Real.log (1 + d₂) :=
    Real.log_le_log (by linarith) (by linarith)
  have hmin : freshness_boost d₁ ≤ freshness_boost d₂ := by
    unfold freshness_boost
    exact min_le_min le_rfl hlog
  linarith

/-- C7 witness: the theorem at a concrete branch, state and staleness pair. -/
theorem rating_monotone_in_days_witness :
    priority_score_aux "Elektrotechnik" ({} : BranchState) 1
      ≤ priority_score_aux "Elektrotechnik" ({} : BranchState) 2 :=
  rating_monotone_in_days "Elektrotechnik" ({} : BranchState) 1 2
    (by norm_num) (by norm_num)

lemma crawl_branch_loop_steps_le (fns : PageFns) (site : Site) (jitter : ℚ)
    (nowIso : String) :
    ∀ fuel store backoff html inserted steps postIdx elapsed,
      (crawl_branch_loop fns site jitter nowIso fuel store backoff html
        inserted steps postIdx elapsed).1.steps ≤ steps + fuel := by
  intro fuel
  induction fuel with
  | zero =>
    intro store backoff html inserted steps postIdx elapsed
    simp [crawl_branch_loop]
  | succ f ih =>
    intro store backoff html inserted steps postIdx elapsed
    simp only [crawl_branch_loop]
    repeat' split
    all_goals try (exact le_trans (ih _ _ _ _ _ _ _) (by omega))
    all_goals try simp

/-- C4 amended: the stepper enforces only a step budget: the loop body runs
at most `MAX_LOAD_MORE_CLICKS + 1` times, and when the range is exhausted
the partial results gathered so far are returned as a valid (non-denied,
non-error) outcome.  There is no wall-clock time budget check. -/
theorem crawl_branch_step_budget (fns : PageFns) (site : Site) (jitter : ℚ)
    (nowIso : String) (store : DedupeStore) (backoff : BackoffController) :
    (crawl_branch fns site jitter nowIso store backoff).1.steps
      ≤ MAX_LOAD_MORE_CLICKS + 1 := by
  unfold crawl_branch
  split
  · simp
  · split
    · simp
    · simpa using crawl_branch_loop_steps_le fns site jitter nowIso
        (MAX_LOAD_MORE_CLICKS + 1) store _ _ 0 0 0 _

/-- A three-page site on which every request takes 10^9 seconds. -/
def cex_site : Site :=
  ⟨Except.ok ⟨200, "P1", 1000000000⟩,
   fun k => if k = 0 then Except.ok ⟨200, "P2", 1000000000⟩
            else Except.ok ⟨200, "P3", 1000000000⟩⟩

/-- Page observations for `cex_site`: every page has the load-more control
and a usable form except the last one. -/
def cex_fns : PageFns :=
  ⟨fun _ => [], fun b => b != "P3", fun _ => true⟩

/-- C4 counterexample: after the first iteration the elapsed wall-clock time
is already 10^9 seconds — beyond any per-branch time budget (every time
constant in the program is at most 500) — yet the stepper performs two
further iterations instead of transitioning to Done: no time-budget check
exists. -/
theorem crawl_branch_no_time_budget_cex :
    (crawl_branch cex_fns cex_site 0 "" ⟨[]⟩ BackoffController.init).1.steps
      = 3
  ∧ (crawl_branch cex_fns cex_site 0 "" ⟨[]⟩
      BackoffController.init).1.duration_s = 3000000000 := by
  have h : (crawl_branch cex_fns cex_site 0 "" ⟨[]⟩
      BackoffController.init).1.duration_s
      = (1000000000 + 1000000000) + 1000000000 := rfl
  exact ⟨rfl, by rw [h]; norm_num⟩

lemma crawl_branch_loop_const_body_any (fns : PageFns) (site : Site)
    (jitter : ℚ) (nowIso : String) (resp₀ : FetchResponse)
    (hpost : ∀ k, site.postResponse k = Except.ok resp₀)
    (hden : is_denied_response resp₀ = false) :
    ∀ fuel store backoff html inserted steps postIdx elapsed,
      (crawl_branch_loop fns site jitter nowIso (fuel + 2) store backoff html
        inserted steps postIdx elapsed).1.steps ≤ steps + 2 := by
  intro fuel store backoff html inserted steps postIdx elapsed
  simp only [crawl_branch_loop, hpost, hden]
  repeat' split
  all_goals try simp_all

/-- C5: loop guard.  Against a server whose every POST returns one and the
same non-denied response — in particular byte-identical bodies — the branch
stepper stops after at most one extra iteration (at most 2 steps in total)
instead of looping to the step budget. -/
theorem crawl_branch_loop_guard_terminates (fns : PageFns) (site : Site)
    (jitter : ℚ) (nowIso : String) (store : DedupeStore)
    (backoff : BackoffController) (resp₀ : FetchResponse)
    (hpost : ∀ k, site.postResponse k = Except.ok resp₀)
    (hden : is_denied_response resp₀ = false) :
    (crawl_branch fns site jitter nowIso store backoff).1.steps ≤ 2 := by
  unfold crawl_branch
  split
  · simp
  · rename_i resp heq
    split
    · simp
    · have h := crawl_branch_loop_const_body_any fns site jitter nowIso resp₀
        hpost hden 499 store backoff.on_success resp.body 0 0 0 resp.durationS
      simpa [MAX_LOAD_MORE_CLICKS] using h

/-- A site whose initial page is "A" and whose every POST returns body "B". -/
def w5_site : Site :=
  ⟨Except.ok ⟨200, "A", 1⟩, fun _ => Except.ok ⟨200, "B", 1⟩⟩

/-- Page observations that always continue: load-more and form present. -/
def w5_fns : PageFns := ⟨fun _ => [], fun _ => true, fun _ => true⟩

/-- C5 witness: the theorem applied to the constant-body site. -/
theorem crawl_branch_loop_guard_terminates_witness :
    (crawl_branch w5_fns w5_site 0 "" ⟨[]⟩ BackoffController.init).1.steps
      ≤ 2 :=
  crawl_branch_loop_guard_terminates w5_fns w5_site 0 "" ⟨[]⟩
    BackoffController.init ⟨200, "B", 1⟩ (fun _ => rfl) (by decide)

end ContinuousCrawler
